import Mathlib

/-!
Shallow embedding of `scripts/generate_skill_tree.py` and verification of the
specified properties of its two core components:

* the caching, rate-limit-aware HTTP client (`GitHubAPI`), and
* the deterministic scoring pipeline (`AdvancedProfileAnalyzer`).

Python floats are modelled as real numbers (`ℝ`) where transcendental
functions (`math.log`, `math.sqrt`) are involved, and as rationals (`ℚ`)
where all arithmetic is rational.  Network I/O is modelled by an explicit
oracle `net : ℕ → NetResult Data` giving the outcome of the n-th network
call of a request, and the mutable client object by an explicit state value
threaded through the request function.  Wall-clock sleeps
(`time.sleep`) have no observable effect on the modelled state and are
omitted; `time.time()` is passed in as the explicit parameter `now`.
-/

/-! ## The caching rate-limited client (`GitHubAPI`, lines 18-196) -/

/-- Outcome of one network call (`urlopen` inside `GitHubAPI._request`).
`success` carries the decoded response body (a malformed body decodes to the
empty structure in the source, so decoding is folded into the oracle) and the
optional `X-RateLimit-Remaining` / `X-RateLimit-Reset` headers.  `httpError`
carries the HTTP status code and the optional rate-limit / `Retry-After`
headers of the error response.  `urlError` is a network-level failure. -/
inductive NetResult (Data : Type) where
  | success (body : Data) (remaining reset : Option ℤ)
  | httpError (code : ℤ) (remaining reset retryAfter : Option ℤ)
  | urlError

/-- Mutable state of a `GitHubAPI` instance: the response cache keyed by
`f"{endpoint}:{json.dumps(params or \x7b\x7d)}"` (line 56, modelled as the
concatenated key string, first association wins on lookup exactly as a dict
with single bindings), plus the tracked rate-limit fields (lines 31-33). -/
structure APIState (Data : Type) where
  cache : List (String × Data)
  rateLimitRemaining : ℤ
  rateLimitReset : ℤ

/-- Result of `GitHubAPI._request`: the returned body (`None` on 404 or
definitive failure), the returned headers (`some ()` only when a fresh
successful response supplied real headers; cache hits and failures return
`None`), the client state after the call, and the number of network calls
performed. -/
structure ReqOutcome (Data : Type) where
  body : Option Data
  hdrs : Option Unit
  state : APIState Data
  netCalls : ℕ

/-- Model of `GitHubAPI._check_rate_limit` (lines 36-52): if the tracked reset time
has passed, refresh the tracked quota to 5000; then, if the tracked quota is
below 10, sleep and optimistically reset it to 5000.  The cache and the
reset timestamp are untouched. -/
def checkRateLimit (now : ℤ) (st : APIState Data) : APIState Data :=
  let rem1 := if st.rateLimitReset ≤ now then (5000 : ℤ) else st.rateLimitRemaining
  let rem2 := if rem1 < 10 then (5000 : ℤ) else rem1
  { st with rateLimitRemaining := rem2 }

/-- The attempt loop of `GitHubAPI._request` (lines 70-117).  `fuel` is the
number of attempts still available (`retry_count - attempt`); the oracle is
indexed by the number of network calls already made.  Mirrors the source
arm by arm: success updates the tracked rate limit from the headers when
present, stores the body in the cache and returns it; 403 updates the
tracked rate limit from the error headers (defaults: remaining 0, reset
now+3600), sleeps and retries; 404 returns the absent sentinel immediately
without caching; 429 sleeps and retries; any other HTTP error or a network
error retries until the last attempt and then returns the failure sentinel.
Falling out of the loop (line 117) also returns the failure sentinel. -/
def requestLoop (net : ℕ → NetResult Data) (cacheKey : String) (now : ℤ) :
    ℕ → APIState Data → ℕ → ReqOutcome Data
  | 0, st, calls => ⟨none, none, st, calls⟩
  | fuel + 1, st, calls =>
    match net calls with
    | .success body rem rst =>
      let st1 : APIState Data :=
        { cache := (cacheKey, body) :: st.cache
          rateLimitRemaining := rem.getD st.rateLimitRemaining
          rateLimitReset := rst.getD st.rateLimitReset }
      ⟨some body, some (), st1, calls + 1⟩
    | .httpError code rem rst _retryAfter =>
      if code = 403 then
        let st1 : APIState Data :=
          { st with rateLimitRemaining := rem.getD 0
                    rateLimitReset := rst.getD (now + 3600) }
        requestLoop net cacheKey now fuel st1 (calls + 1)
      else if code = 404 then ⟨none, none, st, calls + 1⟩
      else if code = 429 then requestLoop net cacheKey now fuel st (calls + 1)
      else if fuel = 0 then ⟨none, none, st, calls + 1⟩
      else requestLoop net cacheKey now fuel st (calls + 1)
    | .urlError =>
      if fuel = 0 then ⟨none, none, st, calls + 1⟩
      else requestLoop net cacheKey now fuel st (calls + 1)

/-- Model of `GitHubAPI._request` (lines 54-117, source name `_request`).  Before any
network activity the cache is consulted under the deterministic key; a hit
returns the stored value with `None` headers, zero network calls and a
completely unchanged state.  On a miss the rate limit is checked, the pacing
delay elapses, and the attempt loop runs with `retryCount` attempts
(3 at every call site). -/
def request (net : ℕ → NetResult Data) (endpoint paramsJson : String) (now : ℤ)
    (retryCount : ℕ) (st : APIState Data) : ReqOutcome Data :=
  let cacheKey := endpoint ++ ":" ++ paramsJson
  match st.cache.lookup cacheKey with
  | some v => ⟨some v, none, st, 0⟩
  | none => requestLoop net cacheKey now retryCount (checkRateLimit now st) 0

/-- Serialization of an absent params dict: `json.dumps(\x7b\x7d)`. -/
def emptyParamsJson : String := "\x7b\x7d"

/-- A per-repository language-bytes mapping as returned by the languages
endpoint. -/
abbrev LangMap : Type := List (String × ℕ)

/-- Model of `GitHubAPI.get_repo_languages` (lines 149-152): fetch the language map
for one repository; `data or \x7b\x7d` turns the absent sentinel (and the
empty body) into the empty mapping. -/
def getRepoLanguages (net : ℕ → NetResult LangMap) (owner repo : String)
    (now : ℤ) (st : APIState LangMap) : LangMap :=
  (request net ("repos/" ++ owner ++ "/" ++ repo ++ "/languages")
    emptyParamsJson now 3 st).body.getD ([] : List (String × ℕ))

/-! ## The skill aggregator (`AdvancedProfileAnalyzer`, lines 199-396) -/

/-- Per-language aggregate, the default value of the `self.skills`
defaultdict (lines 299-307).  `score` accumulates float products of
`math.log` values and is modelled in `ℝ`; `recent_activity` accumulates the
rational recency weights and is modelled in `ℚ`. -/
structure SkillData where
  bytes : ℕ
  repos : ℕ
  commits : ℕ
  score : ℝ
  frameworks : List (String × ℕ)
  top_repo : String × ℕ
  recent_activity : ℚ

/-- The `self.skills` mapping, in insertion order like a Python dict. -/
abbrev SkillsMap : Type := List (String × SkillData)

/-- Default aggregate created on first access of a language key
(lines 299-307). -/
noncomputable def defaultSkill : SkillData :=
  { bytes := 0, repos := 0, commits := 0, score := 0, frameworks := [],
    top_repo := ("", 0), recent_activity := 0 }

/-- Read a language's aggregate, defaulting like the defaultdict. -/
noncomputable def getSkill (m : SkillsMap) (lang : String) : SkillData :=
  (m.lookup lang).getD defaultSkill

/-- Write back a language's aggregate, keeping dict insertion order:
an existing binding is updated in place, a new language is appended. -/
def setSkill : SkillsMap → String → SkillData → SkillsMap
  | [], lang, d => [(lang, d)]
  | (k, v) :: rest, lang, d =>
    if k == lang then (k, d) :: rest else (k, v) :: setSkill rest lang d

/-- Increment a framework's hit counter in the per-language frameworks
defaultdict (line 396), keeping insertion order. -/
def bumpFramework : List (String × ℕ) → String → ℕ → List (String × ℕ)
  | [], fw, w => [(fw, w)]
  | (k, v) :: rest, fw, w =>
    if k == fw then (k, v + w) :: rest else (k, v) :: bumpFramework rest fw w

/-- Python's substring containment `kw in text`, on character lists. -/
def charsContain (pat : List Char) : List Char → Bool
  | [] => pat.isEmpty
  | c :: rest => pat.isPrefixOf (c :: rest) || charsContain pat rest

/-- Python's substring containment `kw in text`, on strings. -/
def strIn (pat text : String) : Bool := charsContain pat.data text.data

/-- The framework keyword tables of `TECH_DETECTION` (lines 202-285).
Only the `frameworks` keyword lists are modelled: the `files` lists are
dead in the analyzed code path, because `_analyze_repo` always passes
`files = []` and `_detect_frameworks` performs text-based detection only
(lines 341-343, 383-396). -/
def TECH_DETECTION : List (String × List (String × List String)) :=
  [ ("Python",
      [ ("Django", ["django", "manage.py", "wsgi.py", "settings.py"]),
        ("Flask", ["flask", "app.py", "application.py"]),
        ("FastAPI", ["fastapi", "main.py", "api"]),
        ("Pandas", ["pandas", "dataframe", "pd."]),
        ("PyTorch", ["torch", "pytorch", "nn.module"]),
        ("TensorFlow", ["tensorflow", "tf.", "keras"]),
        ("Streamlit", ["streamlit", "st."]),
        ("Scrapy", ["scrapy", "spider"]) ]),
    ("JavaScript",
      [ ("React", ["react", "jsx", "tsx", "create-react-app"]),
        ("Vue", ["vue", "nuxt"]),
        ("Angular", ["angular", "@angular"]),
        ("Next.js", ["next", "next.config"]),
        ("Express", ["express", "app.listen"]),
        ("Node.js", ["node", "npm", "server.js"]) ]),
    ("TypeScript",
      [ ("React", ["react", "tsx"]),
        ("Angular", ["angular.json"]),
        ("NestJS", ["nest", "@nestjs"]),
        ("Vue", ["vue", "composition-api"]) ]),
    ("Java",
      [ ("Spring Boot", ["spring-boot", "@springbootapplication"]),
        ("Maven", ["pom.xml", "maven"]),
        ("Gradle", ["build.gradle", "gradle"]),
        ("Hibernate", ["hibernate", "jpa"]),
        ("Android", ["android", "androidmanifest"]) ]),
    ("Go",
      [ ("Gin", ["gin-gonic", "gin"]),
        ("Echo", ["echo", "labstack"]),
        ("Fiber", ["fiber", "gofiber"]) ]),
    ("Rust",
      [ ("Actix", ["actix-web"]),
        ("Rocket", ["rocket"]),
        ("Tokio", ["tokio"]) ]),
    ("PHP",
      [ ("Laravel", ["laravel", "artisan"]),
        ("Symfony", ["symfony"]),
        ("WordPress", ["wordpress", "wp-"]) ]),
    ("C#",
      [ (".NET", ["dotnet", "netcore"]),
        ("ASP.NET", ["asp.net", "mvc"]),
        ("Unity", ["unity", "monobehaviour"]) ]),
    ("Ruby",
      [ ("Rails", ["rails", "activerecord"]),
        ("Sinatra", ["sinatra"]) ]) ]

/-- The `LANGUAGE_COLORS` table (lines 287-294). -/
def LANGUAGE_COLORS : List (String × String) :=
  [ ("Python", "#3572A5"), ("Java", "#b07219"), ("JavaScript", "#f1e05a"),
    ("TypeScript", "#2b7489"), ("C++", "#f34b7d"), ("HTML", "#e34c26"),
    ("CSS", "#563d7c"), ("C#", "#178600"), ("Go", "#00ADD8"),
    ("Rust", "#dea584"), ("PHP", "#4F5D95"), ("Ruby", "#701516"),
    ("Swift", "#ffac45"), ("Kotlin", "#A97BFF"), ("Dart", "#00B4AB"),
    ("Shell", "#89e051"), ("Dockerfile", "#384d54") ]

/-- The recency multiplier for a successfully parsed `pushed_at` timestamp
(line 353): `max(0.3, 1.0 - (days_old / 730))`, a linear two-year decay with
floor 0.3. -/
def recencyWeight (daysOld : ℤ) : ℚ := max (3/10) (1 - (daysOld : ℚ) / 730)

/-- The recency multiplier used when `pushed_at` is missing or fails to
parse (line 348): the default `recency = 0.5` is kept. -/
def fallbackRecency : ℚ := 1/2

/-- The recency computation of `_analyze_repo` (lines 346-355): `none`
stands for a missing or unparsable `pushed_at`. -/
def repoRecency : Option ℤ → ℚ
  | none => fallbackRecency
  | some d => recencyWeight d

/-- Model of `_detect_frameworks` (lines 383-396) for one language's keyword table:
each framework whose keyword list has at least one substring match in the
repo text gains 10 hits. -/
def detectFrameworks (fws : List (String × ℕ))
    (table : List (String × List String)) (text : String) : List (String × ℕ) :=
  table.foldl
    (fun acc p => if p.2.any (fun kw => strIn kw text) then bumpFramework acc p.1 10 else acc)
    fws

/-- The repository summary fields consumed by `_analyze_repo`:
`name`, `size` (KB), `stargazers_count`, the lower-cased
`name + ' ' + description` detection text (line 380), and the parsed
days-since-push (`none` for a missing or unparsable `pushed_at`). -/
structure RepoInfo where
  name : String
  size : ℕ
  stargazers_count : ℕ
  text : String
  pushedDays : Option ℤ

/-- Model of `_analyze_repo` (lines 329-381, source name `_analyze_repo`): skip repos
below 10 KB; for each language of the repo at or above the 1000-byte noise
floor, add its bytes, bump the repo count, add the recency weight, track the
top contributing repo (strictly larger byte counts displace it), accumulate
the weighted log score `(ln(bytes+1)*5 + ln(sizeKB+1)*2 + ln(stars+1)*3) *
recency`, and run framework detection when the language has a keyword
table. -/
noncomputable def analyzeRepo (skills : SkillsMap) (repo : RepoInfo)
    (langs : LangMap) : SkillsMap :=
  if repo.size < 10 then skills
  else
    let recency := repoRecency repo.pushedDays
    (langs : List (String × ℕ)).foldl
      (fun sk lb =>
        if lb.2 < 1000 then sk
        else
          let d := getSkill sk lb.1
          let fws :=
            match TECH_DETECTION.lookup lb.1 with
            | some table => detectFrameworks d.frameworks table repo.text
            | none => d.frameworks
          setSkill sk lb.1
            { bytes := d.bytes + lb.2
              repos := d.repos + 1
              commits := d.commits
              score := d.score +
                (Real.log (lb.2 + 1) * 5 + Real.log (repo.size + 1) * 2 +
                  Real.log (repo.stargazers_count + 1) * 3) * (recency : ℝ)
              frameworks := fws
              top_repo := if d.top_repo.2 < lb.2 then (repo.name, lb.2) else d.top_repo
              recent_activity := d.recent_activity + recency })
      skills

/-! ## The scoring engine (`AdvancedProfileAnalyzer._process_skills`,
lines 398-442) -/

/-- The contribution statistics dictionary produced by
`GitHubAPI.get_contribution_stats` (lines 172-196). -/
structure ContribStats where
  commits : ℕ
  prs : ℕ
  issues : ℕ
  reviews : ℕ
  stars_given : ℕ

/-- The contribution bonus (lines 404-409):
`prs*8 + issues*3 + reviews*5 + commits*0.5`. -/
def contribBonus (c : ContribStats) : ℚ :=
  (c.prs : ℚ) * 8 + (c.issues : ℚ) * 3 + (c.reviews : ℚ) * 5 + (c.commits : ℚ) * (1/2)

/-- The divisor of the contribution bonus (line 417):
`max(len(self.skills), 1)`. -/
def contribDivisor (skills : SkillsMap) : ℚ :=
  ((max (skills : List (String × SkillData)).length 1 : ℕ) : ℚ)

/-- The per-language contribution score (line 417). -/
def contribScoreOf (skills : SkillsMap) (c : ContribStats) : ℚ :=
  contribBonus c / contribDivisor skills

/-- The normalization divisor (line 401):
`sum(s['score'] for s in self.skills.values()) or 1` — the summed score,
with a zero sum replaced by 1 (Python `or` on a falsy `0.0`). -/
noncomputable def totalScoreOf (skills : SkillsMap) : ℝ :=
  let t := ((skills : List (String × SkillData)).map (fun p => p.2.score)).sum
  if t = 0 then 1 else t

/-- The normalized score of one language (line 416):
`(data['score'] / total_score) * 100`. -/
noncomputable def normalizedScore (skills : SkillsMap) (d : SkillData) : ℝ :=
  d.score / totalScoreOf skills * 100

/-- The activity score of one language (line 418):
`data['recent_activity'] * 10`. -/
def activityScore (d : SkillData) : ℚ := d.recent_activity * 10

/-- The final score of one language (line 420). -/
noncomputable def finalScore (skills : SkillsMap) (c : ContribStats) (d : SkillData) : ℝ :=
  normalizedScore skills d + (contribScoreOf skills c : ℝ) + (activityScore d : ℝ)

/-- The pre-clamp integer level (inner part of line 421):
`int(math.sqrt(final_score) * 1.2)`.  On the non-negative final scores of
reachable states `int` truncation coincides with the floor. -/
noncomputable def preClampLevel (skills : SkillsMap) (c : ContribStats) (d : SkillData) : ℤ :=
  ⌊Real.sqrt (finalScore skills c d) * 1.2⌋

/-- The emitted level (line 421): `min(10, max(1, int(...)))`. -/
noncomputable def levelOf (skills : SkillsMap) (c : ContribStats) (d : SkillData) : ℤ :=
  min 10 (max 1 (preClampLevel skills c d))

/-- One emitted skill entry (lines 430-439). -/
structure SkillRecord where
  name : String
  level : ℤ
  repos : ℕ
  bytes : ℕ
  frameworks : List String
  top_repo : String
  color : String
  score : ℝ

/-- Descending order on framework hit counts, the comparator of the
`sorted(..., key=lambda x: x[1], reverse=True)` at lines 424-428. -/
def fwGE (a b : String × ℕ) : Prop := b.2 ≤ a.2

instance : DecidableRel fwGE := fun a b => inferInstanceAs (Decidable (_ ≤ _))

instance : IsTotal (String × ℕ) fwGE where
  total a b := le_total b.2 a.2

instance : IsTrans (String × ℕ) fwGE where
  trans _ _ _ hab hbc := le_trans hbc hab

/-- The top frameworks of one language (lines 423-428, 435): hit counts
descending, truncated to 5, names only. -/
def topFrameworksOf (d : SkillData) : List String :=
  ((List.insertionSort fwGE d.frameworks).take 5).map (fun p => p.1)

/-- Build the emitted record for one language (lines 430-439). -/
noncomputable def mkRecord (skills : SkillsMap) (c : ContribStats)
    (lang : String) (d : SkillData) : SkillRecord :=
  { name := lang
    level := levelOf skills c d
    repos := d.repos
    bytes := d.bytes
    frameworks := topFrameworksOf d
    top_repo := d.top_repo.1
    color := (LANGUAGE_COLORS.lookup lang).getD "#888888"
    score := finalScore skills c d }

/-- Descending lexicographic order on `(level, bytes)`, the comparator of
the final `sorted(processed, key=lambda x: (x['level'], x['bytes']),
reverse=True)` at line 442. -/
def rankGE (a b : SkillRecord) : Prop :=
  b.level < a.level ∨ (b.level = a.level ∧ b.bytes ≤ a.bytes)

instance : DecidableRel rankGE := fun a b => inferInstanceAs (Decidable (_ ∨ _))

instance : IsTotal SkillRecord rankGE where
  total a b := by
    rcases lt_trichotomy a.level b.level with h | h | h
    · exact Or.inr (Or.inl h)
    · rcases le_total b.bytes a.bytes with h2 | h2
      · exact Or.inl (Or.inr ⟨h.symm, h2⟩)
      · exact Or.inr (Or.inr ⟨h, h2⟩)
    · exact Or.inl (Or.inl h)

instance : IsTrans SkillRecord rankGE where
  trans a b c hab hbc := by
    rcases hab with h1 | ⟨h1, h1'⟩ <;> rcases hbc with h2 | ⟨h2, h2'⟩
    · exact Or.inl (h2.trans h1)
    · exact Or.inl (h2 ▸ h1)
    · exact Or.inl (h1 ▸ h2)
    · exact Or.inr ⟨h2.trans h1, h2'.trans h1'⟩

/-- Model of `_process_skills` (lines 398-442, source name `_process_skills`): drop
languages below the 1000-byte reporting floor, build a record for each
remaining language from its normalized, contribution and activity scores,
then sort descending by `(level, bytes)` and keep the top 12. -/
noncomputable def processSkills (skills : SkillsMap) (c : ContribStats) : List SkillRecord :=
  let processed := (skills : List (String × SkillData)).filterMap
    (fun p => if p.2.bytes < 1000 then none else some (mkRecord skills c p.1 p.2))
  (List.insertionSort rankGE processed).take 12

/-! ## The scoring algorithm described by the specification

The following definitions are NOT translated from the source: they follow
the words of the specification (section 4.4, steps 2-6) so that the claimed
sub-score decomposition can be compared with the code's actual level
computation.  Constants are instantiated at the spec's example values:
volume 0-40 saturating at 1 MB, recency 0-30, breadth 4 per repo capped at
20, dominance 0-10, divisor 10. -/

/-- Modelled from the spec: the volume sub-score, "computed from the
base-10 logarithm of total bytes, linearly mapped so that a small byte
count yields 0 and a byte count at/above a high-volume reference (~1 MB)
saturates at the maximum" (0-40). -/
noncomputable def specVolumeSub (bytes : ℕ) : ℝ :=
  min 40 (max 0 (40 * Real.logb 10 (bytes : ℝ) / 6))

/-- Modelled from the spec: the recency sub-score, "average recency weight
across contributing repositories, scaled linearly to the range maximum"
(0-30). -/
noncomputable def specRecencySub (recencySum : ℚ) (repos : ℕ) : ℝ :=
  30 * ((recencySum : ℝ) / (repos : ℝ))

/-- Modelled from the spec: the breadth sub-score, "linear in repository
count, capped at the range maximum (4 points per repo, capped at 5 repos)"
(0-20). -/
def specBreadthSub (repos : ℕ) : ℕ := min 20 (4 * repos)

/-- Modelled from the spec: the dominance sub-score, "this language's share
of the account's total bytes across all languages, scaled linearly"
(0-10). -/
noncomputable def specDominanceSub (bytes totalBytes : ℕ) : ℝ :=
  10 * ((bytes : ℝ) / (totalBytes : ℝ))

/-- Modelled from the spec: the claimed pre-clamp level, "summing four
bounded sub-scores ... and dividing the sum by a fixed divisor (10) with
truncation". -/
noncomputable def specPreClampLevel (bytes totalBytes repos : ℕ) (recencySum : ℚ) : ℤ :=
  ⌊(specVolumeSub bytes + specRecencySub recencySum repos +
    (specBreadthSub repos : ℝ) + specDominanceSub bytes totalBytes) / 10⌋

/-! ## Concrete inputs used to exercise the model -/

/-- A single-repository language aggregate with `b` total bytes, raw score
100 and no recency sum, as produced by the aggregator for a stale repo
whose logs sum appropriately. -/
noncomputable def exSkillDataB (b : ℕ) : SkillData :=
  { bytes := b, repos := 1, commits := 0, score := 100, frameworks := [],
    top_repo := ("demo", b), recent_activity := 0 }

/-- An aggregate map holding a single language backed by one repository. -/
noncomputable def exSkillsB (b : ℕ) : SkillsMap := [("Python", exSkillDataB b)]

/-- Contribution statistics with every counter zero. -/
def zeroContrib : ContribStats := ⟨0, 0, 0, 0, 0⟩

/-- The record `processSkills` emits for `exSkillsB b`. -/
noncomputable def exRecordB (b : ℕ) : SkillRecord :=
  { name := "Python", level := 10, repos := 1, bytes := b, frameworks := [],
    top_repo := "demo", color := "#3572A5", score := 100 }

/-- A five-repository language aggregate: 1 MB of bytes, recency sum 4.4,
raw score 100. -/
noncomputable def exSkillData3 : SkillData :=
  { bytes := 1000000, repos := 5, commits := 0, score := 100, frameworks := [],
    top_repo := ("demo", 500000), recent_activity := 22/5 }

/-- An aggregate map holding only `exSkillData3`. -/
noncomputable def exSkills3 : SkillsMap := [("Python", exSkillData3)]

theorem sqrtHundred : Real.sqrt 100 = 10 := by
  rw [show (100 : ℝ) = 10 ^ 2 by norm_num, Real.sqrt_sq (by norm_num : (0:ℝ) ≤ 10)]

theorem sqrtOneFourFour : Real.sqrt 144 = 12 := by
  rw [show (144 : ℝ) = 12 ^ 2 by norm_num, Real.sqrt_sq (by norm_num : (0:ℝ) ≤ 12)]

theorem totalScore_exB (b : ℕ) : totalScoreOf (exSkillsB b) = 100 := by
  unfold totalScoreOf
  simp only [exSkillsB, exSkillDataB, List.map_cons, List.map_nil, List.sum_cons,
    List.sum_nil, add_zero]
  norm_num

theorem finalScore_exB (b : ℕ) :
    finalScore (exSkillsB b) zeroContrib (exSkillDataB b) = 100 := by
  unfold finalScore normalizedScore activityScore contribScoreOf contribBonus
  rw [totalScore_exB b]
  simp only [exSkillDataB, zeroContrib]
  push_cast
  norm_num

theorem preClampLevel_exB (b : ℕ) :
    preClampLevel (exSkillsB b) zeroContrib (exSkillDataB b) = 12 := by
  unfold preClampLevel
  rw [finalScore_exB b, sqrtHundred, show (10 : ℝ) * 1.2 = 12 by norm_num]
  exact Int.floor_eq_iff.mpr (by norm_num)

theorem levelOf_exB (b : ℕ) :
    levelOf (exSkillsB b) zeroContrib (exSkillDataB b) = 10 := by
  unfold levelOf
  rw [preClampLevel_exB b]
  decide

theorem mkRecord_exB (b : ℕ) :
    mkRecord (exSkillsB b) zeroContrib "Python" (exSkillDataB b) = exRecordB b := by
  unfold mkRecord exRecordB
  rw [levelOf_exB b, finalScore_exB b]
  rfl

theorem processSkills_exB (b : ℕ) (hb : 1000 ≤ b) :
    processSkills (exSkillsB b) zeroContrib = [exRecordB b] := by
  have hb' : ¬ b < 1000 := not_lt.mpr hb
  have h1 : ∀ f : String × SkillData → Option SkillRecord,
      f ("Python", exSkillDataB b) = some (exRecordB b) →
      (exSkillsB b).filterMap f = [exRecordB b] := by
    intro f hf
    show List.filterMap f [("Python", exSkillDataB b)] = [exRecordB b]
    simp [List.filterMap_cons, hf]
  unfold processSkills
  rw [h1 _ ?_]
  · simp [List.insertionSort]
  · show (if b < 1000 then none
      else some (mkRecord (exSkillsB b) zeroContrib "Python" (exSkillDataB b))) =
      some (exRecordB b)
    rw [if_neg hb', mkRecord_exB b]

/-- Every record emitted by `processSkills` comes from a language of the
input map that passed the 1000-byte reporting floor and was built by
`mkRecord`. -/
theorem mem_processSkills {skills : SkillsMap} {c : ContribStats} {r : SkillRecord}
    (hr : r ∈ processSkills skills c) :
    ∃ p : String × SkillData, p ∈ (skills : List (String × SkillData)) ∧
      ¬ p.2.bytes < 1000 ∧ r = mkRecord skills c p.1 p.2 := by
  unfold processSkills at hr
  have h1 := List.take_subset 12 _ hr
  have h2 := (List.perm_insertionSort rankGE _).mem_iff.mp h1
  rcases List.mem_filterMap.mp h2 with ⟨p, hp, he⟩
  by_cases hb : p.2.bytes < 1000
  · rw [if_pos hb] at he
    exact absurd he (by simp)
  · rw [if_neg hb] at he
    exact ⟨p, hp, hb, (Option.some_inj.mp he).symm⟩

theorem totalScore_ex3 : totalScoreOf exSkills3 = 100 := by
  unfold totalScoreOf
  simp only [exSkills3, exSkillData3, List.map_cons, List.map_nil, List.sum_cons,
    List.sum_nil, add_zero]
  norm_num

theorem finalScore_ex3 : finalScore exSkills3 zeroContrib exSkillData3 = 144 := by
  unfold finalScore normalizedScore activityScore contribScoreOf contribBonus
  rw [totalScore_ex3]
  simp only [exSkillData3, zeroContrib]
  push_cast
  norm_num

theorem preClampLevel_ex3 : preClampLevel exSkills3 zeroContrib exSkillData3 = 14 := by
  unfold preClampLevel
  rw [finalScore_ex3, sqrtOneFourFour, show (12 : ℝ) * 1.2 = 14.4 by norm_num]
  exact Int.floor_eq_iff.mpr (by norm_num)

theorem logbTenMillion : Real.logb 10 (1000000 : ℝ) = 6 := by
  have hlog : Real.log 10 ≠ 0 := ne_of_gt (Real.log_pos (by norm_num))
  rw [show (1000000 : ℝ) = 10 ^ (6 : ℕ) by norm_num, Real.logb, Real.log_pow]
  field_simp

theorem specPreClampLevel_ex3 : specPreClampLevel 1000000 1000000 5 (22/5) = 9 := by
  unfold specPreClampLevel specVolumeSub specRecencySub specBreadthSub specDominanceSub
  rw [show ((1000000 : ℕ) : ℝ) = (1000000 : ℝ) by norm_num, logbTenMillion]
  push_cast
  rw [show (40 : ℝ) * 6 / 6 = 40 by norm_num, show max (0:ℝ) 40 = 40 by norm_num,
    show min (40:ℝ) 40 = 40 by norm_num,
    show (40 : ℝ) + 30 * (22 / 5 / 5) + min 20 20 + 10 * (1000000 / 1000000) = 96.4 by
      norm_num]
  exact Int.floor_eq_iff.mpr (by norm_num)

/-! ## Behaviour of the client on cache hits, successes and 404s -/

/-- A cache hit returns the stored value with `None` headers, performs no
network call and leaves the whole client state unchanged (lines 57-58). -/
theorem request_hit {Data : Type} (net : ℕ → NetResult Data) (ep ps : String)
    (now : ℤ) (rc : ℕ) (st : APIState Data) (v : Data)
    (hhit : st.cache.lookup (ep ++ ":" ++ ps) = some v) :
    request net ep ps now rc st = ⟨some v, none, st, 0⟩ := by
  simp only [request, hhit]

/-- One attempt that succeeds: rate-limit headers are absorbed, the body is
cached and returned together with the response headers (lines 71-88). -/
theorem requestLoop_step_success {Data : Type} (net : ℕ → NetResult Data)
    (key : String) (now : ℤ) (fuel : ℕ) (st : APIState Data) (calls : ℕ)
    (body : Data) (rem rst : Option ℤ) (hnet : net calls = .success body rem rst) :
    requestLoop net key now (fuel + 1) st calls =
      ⟨some body, some (),
        ⟨(key, body) :: st.cache, rem.getD st.rateLimitRemaining,
          rst.getD st.rateLimitReset⟩, calls + 1⟩ := by
  simp only [requestLoop, hnet]

/-- One attempt that hits a 404: the absent sentinel is returned at once,
nothing is stored and the state of the loop is untouched (lines 101-102). -/
theorem requestLoop_step_404 {Data : Type} (net : ℕ → NetResult Data)
    (key : String) (now : ℤ) (fuel : ℕ) (st : APIState Data) (calls : ℕ)
    (rem rst ra : Option ℤ) (hnet : net calls = .httpError 404 rem rst ra) :
    requestLoop net key now (fuel + 1) st calls = ⟨none, none, st, calls + 1⟩ := by
  simp only [requestLoop, hnet]
  norm_num

/-- A cache miss reduces to the attempt loop over the rate-checked state. -/
theorem request_miss {Data : Type} (net : ℕ → NetResult Data) (ep ps : String)
    (now : ℤ) (rc : ℕ) (st : APIState Data)
    (hmiss : st.cache.lookup (ep ++ ":" ++ ps) = none) :
    request net ep ps now rc st =
      requestLoop net (ep ++ ":" ++ ps) now rc (checkRateLimit now st) 0 := by
  simp only [request, hmiss]

/-! ## Concrete client runs -/

/-- A remote that answers every call with HTTP 404. -/
def exNet404 : ℕ → NetResult Unit := fun _ => NetResult.httpError 404 none none none

/-- A fresh client state: empty cache, optimistic quota. -/
def exStEmpty : APIState Unit := ⟨[], 5000, 0⟩

/-- First request of a pair that keeps 404-ing. -/
def exReqFirst : ReqOutcome Unit := request exNet404 "repos/u/gone/languages" "q" 0 3 exStEmpty

/-- Second request for the same endpoint/parameter pair in the same run. -/
def exReqSecond : ReqOutcome Unit :=
  request exNet404 "repos/u/gone/languages" "q" 0 3 exReqFirst.state

/-- A remote that always succeeds with a unit body and no rate headers. -/
def exNetOk : ℕ → NetResult Unit := fun _ => NetResult.success () none none

/-- A client state whose cache is already populated for the key "e:p". -/
def exStPop : APIState Unit := ⟨[("e:p", ())], 5000, 0⟩

/-- The 404-answering remote at the languages-endpoint response type. -/
def exNet404L : ℕ → NetResult LangMap := fun _ => NetResult.httpError 404 none none none

/-- A fresh client state at the languages-endpoint response type. -/
def exStLang : APIState LangMap := ⟨[], 5000, 0⟩

/-- A 50 KB repository with no stars and an unparsable `pushed_at`. -/
def exRepoGone : RepoInfo := ⟨"gone", 50, 0, "gone", none⟩

/-! ## Claims -/

/-- Claim C1, counterexample: a language aggregate backed by exactly one
contributing repository (and 2 MB of bytes) is emitted at level 10, not
capped at 6 — `_process_skills` contains no single-repository penalty. -/
theorem singleRepoCapCounterexample :
    (processSkills (exSkillsB 2000000) zeroContrib).map (fun r => (r.repos, r.level)) =
      [(1, 10)] := by
  rw [processSkills_exB 2000000 (by norm_num)]
  rfl

/-- Claim C1 (amended): for every language aggregate with exactly one
contributing repository, the emitted level is at most 10 — the only bound
is the global clamp; no mid-tier ceiling of 6 exists. -/
theorem singleRepoLevelAtMostTen (skills : SkillsMap) (c : ContribStats)
    (r : SkillRecord) (hr : r ∈ processSkills skills c) (hrep : r.repos = 1) :
    r.level ≤ 10 := by
  rcases mem_processSkills hr with ⟨p, _, _, rfl⟩
  show min 10 (max 1 (preClampLevel skills c p.2)) ≤ 10
  exact min_le_left _ _

/-- Witness for the amended claim C1 at a concrete one-repository input. -/
theorem singleRepoLevelAtMostTen_witness : (exRecordB 2000000).level ≤ 10 :=
  singleRepoLevelAtMostTen (exSkillsB 2000000) zeroContrib (exRecordB 2000000)
    (by rw [processSkills_exB 2000000 (by norm_num)]; exact List.mem_singleton_self _) rfl

/-- Claim C2, counterexample: a language with 1 repo and 3000 total bytes
(above the 1000-byte reporting floor) is emitted at level 10, not forced to
level 1 — `_process_skills` contains no minimal-volume override. -/
theorem minimalVolumeLevelOneCounterexample :
    (processSkills (exSkillsB 3000) zeroContrib).map (fun r => (r.bytes, r.level)) =
      [(3000, 10)] := by
  rw [processSkills_exB 3000 (by norm_num)]
  rfl

/-- Claim C2 (amended): languages below the 1000-byte floor are omitted
from the output entirely rather than being pinned to level 1; every emitted
record has at least 1000 bytes, and records above the floor get the normal
score formula with no level-1 override. -/
theorem emittedBytesAtLeastFloor (skills : SkillsMap) (c : ContribStats)
    (r : SkillRecord) (hr : r ∈ processSkills skills c) : 1000 ≤ r.bytes := by
  rcases mem_processSkills hr with ⟨p, _, hb, rfl⟩
  exact not_lt.mp hb

/-- Witness for the amended claim C2 at the 3000-byte input. -/
theorem emittedBytesAtLeastFloor_witness : 1000 ≤ (exRecordB 3000).bytes :=
  emittedBytesAtLeastFloor (exSkillsB 3000) zeroContrib (exRecordB 3000)
    (by rw [processSkills_exB 3000 (by norm_num)]; exact List.mem_singleton_self _)

/-- Claim C3, counterexample: at a 1 MB, five-repository language owning
all bytes of the account (recency sum 4.4, raw score 100), the code's
pre-clamp level is `int(sqrt(144)*1.2) = 14` while the claimed
sum-of-four-sub-scores-divided-by-10 yields 9 — the code does not compute
the level from the claimed sub-score decomposition. -/
theorem subscoreSumCounterexample :
    preClampLevel exSkills3 zeroContrib exSkillData3 ≠
      specPreClampLevel 1000000 1000000 5 (22/5) := by
  rw [preClampLevel_ex3, specPreClampLevel_ex3]
  decide

/-- Claim C3 (amended): every emitted level is
`min(10, max(1, int(sqrt(normalized + contribution + activity) * 1.2)))`
for its language's aggregate — a square-root of the summed normalized,
contribution and activity scores, not a sum of four log-based sub-scores
divided by 10. -/
theorem emittedLevelFormula (skills : SkillsMap) (c : ContribStats)
    (r : SkillRecord) (hr : r ∈ processSkills skills c) :
    ∃ lang d, (lang, d) ∈ (skills : List (String × SkillData)) ∧ r.name = lang ∧
      r.level = min 10 (max 1 (preClampLevel skills c d)) := by
  rcases mem_processSkills hr with ⟨p, hp, _, rfl⟩
  exact ⟨p.1, p.2, hp, rfl, rfl⟩

/-- Witness for the amended claim C3 at a concrete input. -/
theorem emittedLevelFormula_witness :
    ∃ lang d, (lang, d) ∈ (exSkillsB 2000000 : List (String × SkillData)) ∧
      (exRecordB 2000000).name = lang ∧
      (exRecordB 2000000).level =
        min 10 (max 1 (preClampLevel (exSkillsB 2000000) zeroContrib d)) :=
  emittedLevelFormula (exSkillsB 2000000) zeroContrib (exRecordB 2000000)
    (by rw [processSkills_exB 2000000 (by norm_num)]; exact List.mem_singleton_self _)

/-- Claim C4: every record emitted by the scoring engine has an integer
level in the closed interval [1,10], for any aggregate map and any
contribution statistics — `min(10, max(1, ...))` is the last operation on
the level. -/
theorem levelInRange (skills : SkillsMap) (c : ContribStats) (r : SkillRecord)
    (hr : r ∈ processSkills skills c) : 1 ≤ r.level ∧ r.level ≤ 10 := by
  rcases mem_processSkills hr with ⟨p, _, _, rfl⟩
  constructor
  · show (1 : ℤ) ≤ min 10 (max 1 (preClampLevel skills c p.2))
    exact le_min (by norm_num) (le_max_left 1 _)
  · show min 10 (max 1 (preClampLevel skills c p.2)) ≤ 10
    exact min_le_left _ _

/-- Witness for claim C4 at a concrete input. -/
theorem levelInRange_witness :
    1 ≤ (exRecordB 5000).level ∧ (exRecordB 5000).level ≤ 10 :=
  levelInRange (exSkillsB 5000) zeroContrib (exRecordB 5000)
    (by rw [processSkills_exB 5000 (by norm_num)]; exact List.mem_singleton_self _)

/-- Claim C5, counterexample: the same endpoint/parameter pair requested
twice in one run against a remote that answers 404 performs a network call
both times (the not-found result is never cached), so "exactly one network
call per pair requested more than once" fails. -/
theorem repeatedRequestTwoCallsCounterexample :
    exReqFirst.netCalls = 1 ∧ exReqSecond.netCalls = 1 := ⟨rfl, rfl⟩

/-- Claim C5 (amended): once a pair's first request succeeds (and is thus
cached), that fetch performed exactly one network call, and every
subsequent request for the pair returns the identical cached body with no
network call and a completely unchanged client state — though with `None`
in place of the first call's headers component. -/
theorem cachedRequestSingleCall {Data : Type} (net net2 : ℕ → NetResult Data)
    (ep ps : String) (now now2 : ℤ) (st : APIState Data) (body : Data)
    (rem rst : Option ℤ)
    (hmiss : st.cache.lookup (ep ++ ":" ++ ps) = none)
    (hnet : net 0 = NetResult.success body rem rst) :
    (request net ep ps now 3 st).body = some body ∧
    (request net ep ps now 3 st).hdrs = some () ∧
    (request net ep ps now 3 st).netCalls = 1 ∧
    request net2 ep ps now2 3 (request net ep ps now 3 st).state =
      ⟨some body, none, (request net ep ps now 3 st).state, 0⟩ := by
  have h2 := request_miss net ep ps now 3 st hmiss
  have h3 : requestLoop net (ep ++ ":" ++ ps) now 3 (checkRateLimit now st) 0 =
      ⟨some body, some (),
        ⟨(ep ++ ":" ++ ps, body) :: (checkRateLimit now st).cache,
          rem.getD (checkRateLimit now st).rateLimitRemaining,
          rst.getD (checkRateLimit now st).rateLimitReset⟩, 1⟩ :=
    requestLoop_step_success net (ep ++ ":" ++ ps) now 2 (checkRateLimit now st) 0
      body rem rst hnet
  have h4 := h2.trans h3
  refine ⟨by rw [h4], by rw [h4], by rw [h4], ?_⟩
  rw [h4]
  apply request_hit
  simp [List.lookup]

/-- Witness for the amended claim C5 at a concrete run. -/
theorem cachedRequestSingleCall_witness :
    (request exNetOk "e" "p" 0 3 exStEmpty).body = some () ∧
    (request exNetOk "e" "p" 0 3 exStEmpty).hdrs = some () ∧
    (request exNetOk "e" "p" 0 3 exStEmpty).netCalls = 1 ∧
    request exNetOk "e" "p" 0 3 (request exNetOk "e" "p" 0 3 exStEmpty).state =
      ⟨some (), none, (request exNetOk "e" "p" 0 3 exStEmpty).state, 0⟩ :=
  cachedRequestSingleCall exNetOk exNetOk "e" "p" 0 0 exStEmpty () none none rfl rfl

/-- Claim C6, counterexample: after a confirmed 404 the cache holds no
entry at all for the requested key — the client does not store a null
cache entry, so a later request for the same key hits the network again. -/
theorem notfoundNoCacheEntryCounterexample :
    exReqFirst.body = none ∧ exReqFirst.state.cache = [] := ⟨rfl, rfl⟩

/-- Claim C6 (amended): a confirmed 404 returns the absent sentinel without
writing any cache entry (the cache is unchanged); only successful responses
populate the cache, and once a key is populated every lookup for it returns
the stored value with no new network call and no state change. -/
theorem notfoundUncachedHitsServed {Data : Type} (net net2 : ℕ → NetResult Data)
    (ep ps : String) (now now2 : ℤ) (st st2 : APIState Data) (v : Data)
    (rem rst ra : Option ℤ)
    (hmiss : st.cache.lookup (ep ++ ":" ++ ps) = none)
    (hnet : net 0 = NetResult.httpError 404 rem rst ra)
    (hhit : st2.cache.lookup (ep ++ ":" ++ ps) = some v) :
    (request net ep ps now 3 st).body = none ∧
    (request net ep ps now 3 st).hdrs = none ∧
    (request net ep ps now 3 st).state.cache = st.cache ∧
    request net2 ep ps now2 3 st2 = ⟨some v, none, st2, 0⟩ := by
  have h2 := request_miss net ep ps now 3 st hmiss
  have h3 : requestLoop net (ep ++ ":" ++ ps) now 3 (checkRateLimit now st) 0 =
      ⟨none, none, checkRateLimit now st, 1⟩ :=
    requestLoop_step_404 net (ep ++ ":" ++ ps) now 2 (checkRateLimit now st) 0
      rem rst ra hnet
  have h4 := h2.trans h3
  exact ⟨by rw [h4], by rw [h4], by rw [h4]; rfl, request_hit net2 ep ps now2 3 st2 v hhit⟩

/-- Witness for the amended claim C6 at a concrete run. -/
theorem notfoundUncachedHitsServed_witness :
    (request exNet404 "e" "p" 0 3 exStEmpty).body = none ∧
    (request exNet404 "e" "p" 0 3 exStEmpty).hdrs = none ∧
    (request exNet404 "e" "p" 0 3 exStEmpty).state.cache = exStEmpty.cache ∧
    request exNet404 "e" "p" 0 3 exStPop = ⟨some (), none, exStPop, 0⟩ :=
  notfoundUncachedHitsServed exNet404 exNet404 "e" "p" 0 0 exStEmpty exStPop ()
    none none none rfl rfl rfl

/-- Claim C7: the sequence returned by the scoring engine is sorted
descending by the pair (level, bytes) — records with equal level are
ordered by descending bytes — and has length at most 12. -/
theorem outputSortedTruncated (skills : SkillsMap) (c : ContribStats) :
    List.Sorted rankGE (processSkills skills c) ∧
    (processSkills skills c).length ≤ 12 := by
  constructor
  · exact List.Pairwise.sublist (List.take_sublist 12 _)
      (List.sorted_insertionSort rankGE _)
  · unfold processSkills
    rw [List.length_take]
    exact min_le_left _ _

/-- Claim C8: the per-repository recency weight is
`max(0.3, 1 - daysOld/730)`, is monotonically non-increasing in `daysOld`,
never drops below the 0.3 floor (hence never goes negative), and a
`pushed_at` parse failure falls back to the fixed weight 0.5. -/
theorem recencyWeightProps (d1 d2 : ℤ) (h : d1 ≤ d2) :
    recencyWeight d2 ≤ recencyWeight d1 ∧
    recencyWeight d1 = max (3/10 : ℚ) (1 - (d1 : ℚ) / 730) ∧
    (3/10 : ℚ) ≤ recencyWeight d1 ∧
    (0 : ℚ) ≤ recencyWeight d1 ∧
    repoRecency none = fallbackRecency ∧ fallbackRecency = 1/2 := by
  refine ⟨?_, rfl, ?_, ?_, rfl, rfl⟩
  · unfold recencyWeight
    apply max_le_max le_rfl
    have hc : (d1 : ℚ) ≤ (d2 : ℚ) := by exact_mod_cast h
    linarith
  · exact le_max_left (3/10 : ℚ) (1 - (d1 : ℚ) / 730)
  · exact le_trans (by norm_num)
      (le_max_left (3/10 : ℚ) (1 - (d1 : ℚ) / 730))

/-- Witness for claim C8 at concrete ages 5 and 10 days. -/
theorem recencyWeightProps_witness :
    recencyWeight 10 ≤ recencyWeight 5 ∧
    recencyWeight 5 = max (3/10 : ℚ) (1 - ((5 : ℤ) : ℚ) / 730) ∧
    (3/10 : ℚ) ≤ recencyWeight 5 ∧
    (0 : ℚ) ≤ recencyWeight 5 ∧
    repoRecency none = fallbackRecency ∧ fallbackRecency = 1/2 :=
  recencyWeightProps 5 10 (by decide)

/-- Claim C9: a request answered with HTTP 404 returns the absent sentinel
after exactly one network call (no retries, no raised error); the languages
endpoint maps the sentinel to an empty language mapping, and a repository
with an empty language mapping contributes nothing to the aggregation, so
the run continues. -/
theorem notfoundSentinelNoRetry (net : ℕ → NetResult LangMap)
    (owner repo : String) (now : ℤ) (st : APIState LangMap)
    (rem rst ra : Option ℤ) (skills : SkillsMap) (rinfo : RepoInfo)
    (hmiss : st.cache.lookup
      ("repos/" ++ owner ++ "/" ++ repo ++ "/languages" ++ ":" ++ emptyParamsJson) = none)
    (hnet : net 0 = NetResult.httpError 404 rem rst ra) :
    (request net ("repos/" ++ owner ++ "/" ++ repo ++ "/languages")
        emptyParamsJson now 3 st).body = none ∧
    (request net ("repos/" ++ owner ++ "/" ++ repo ++ "/languages")
        emptyParamsJson now 3 st).netCalls = 1 ∧
    getRepoLanguages net owner repo now st = [] ∧
    analyzeRepo skills rinfo [] = skills := by
  have h2 := request_miss net ("repos/" ++ owner ++ "/" ++ repo ++ "/languages")
    emptyParamsJson now 3 st hmiss
  have h3 : requestLoop net
      ("repos/" ++ owner ++ "/" ++ repo ++ "/languages" ++ ":" ++ emptyParamsJson)
      now 3 (checkRateLimit now st) 0 = ⟨none, none, checkRateLimit now st, 1⟩ :=
    requestLoop_step_404 net _ now 2 (checkRateLimit now st) 0 rem rst ra hnet
  have h4 := h2.trans h3
  refine ⟨by rw [h4], by rw [h4], ?_, ?_⟩
  · unfold getRepoLanguages
    rw [h4]
    rfl
  · unfold analyzeRepo
    split <;> rfl

/-- Witness for claim C9 at a concrete 404 run. -/
theorem notfoundSentinelNoRetry_witness :
    (request exNet404L ("repos/" ++ "u" ++ "/" ++ "gone" ++ "/languages")
        emptyParamsJson 0 3 exStLang).body = none ∧
    (request exNet404L ("repos/" ++ "u" ++ "/" ++ "gone" ++ "/languages")
        emptyParamsJson 0 3 exStLang).netCalls = 1 ∧
    getRepoLanguages exNet404L "u" "gone" 0 exStLang = [] ∧
    analyzeRepo [] exRepoGone [] = [] :=
  notfoundSentinelNoRetry exNet404L "u" "gone" 0 exStLang none none none [] exRepoGone
    rfl rfl

/-- Claim C10: the two divisions of `_process_skills` are well-defined for
every aggregate state: the normalization divisor is the summed score with a
zero sum replaced by 1, and the contribution-bonus divisor is the language
count floored at 1, so neither divisor is ever zero. -/
theorem divisorsNonzero (skills : SkillsMap) :
    totalScoreOf skills ≠ 0 ∧ contribDivisor skills ≠ 0 := by
  constructor
  · unfold totalScoreOf
    dsimp only
    split
    · norm_num
    · assumption
  · unfold contribDivisor
    have h := Nat.le_max_right (skills : List (String × SkillData)).length 1
    exact Nat.cast_ne_zero.mpr (by omega)
